import Mathlib

/-!
Verification development for the transport layer of Lavalink.py
(src/lavalink/transport.py). The definitions below are a shallow
embedding of the state and control flow of the `Transport` class:
pure data for its mutable fields, explicit traces for the connection
attempt loop, the flush-on-connect phase and the websocket read loop.
-/

namespace Lavalink

/-- Capacity of the outbound message queue (MESSAGE_QUEUE_MAX_SIZE). -/
def MESSAGE_QUEUE_MAX_SIZE : Nat := 25

/-- Lavalink REST and websocket API version segment (LAVALINK_API_VERSION). -/
def LAVALINK_API_VERSION : List Char := ['v', '4']

/-- The mutable fields of a Transport that the claims concern: the
destroyed flag, whether the websocket is connected (ws_connected:
the socket exists and is not closed), and the outbound message queue. -/
structure TransportState (α : Type) where
  destroyed : Bool
  ws_connected : Bool
  message_queue : List α

/-- Lifecycle error raised by connect and request after destruction:
the IOError about instantiating connections with a closed session. -/
inductive LifecycleError
  | closedSession
  deriving DecidableEq

/-- Observable outcome of one call to Transport send. -/
inductive SendOutcome
  | transmitted
  | queued
  | dropped
  deriving DecidableEq

/-- Embedding of Transport send. The source has no destroyed check
here: when the websocket is not connected the payload is queued, unless
the queue already holds MESSAGE_QUEUE_MAX_SIZE entries, in which case
the payload is discarded with a warning. When connected the payload is
transmitted (a connection reset during transmission is logged and
swallowed, which does not change the state). -/
def send {α : Type} (s : TransportState α) (m : α) : TransportState α × SendOutcome :=
  if s.ws_connected then
    (s, SendOutcome.transmitted)
  else if MESSAGE_QUEUE_MAX_SIZE ≤ s.message_queue.length then
    (s, SendOutcome.dropped)
  else
    (⟨s.destroyed, s.ws_connected, s.message_queue ++ [m]⟩, SendOutcome.queued)

/-- Folding send over a list of payloads, keeping only the state. -/
def send_all {α : Type} (s : TransportState α) (ms : List α) : TransportState α :=
  ms.foldl (fun st m => (send st m).1) s

/-- Embedding of Transport destroy: sets the destroyed flag and performs
close, which cancels the read task and drops the socket reference, so
the websocket is no longer connected. The queue is untouched. -/
def destroy {α : Type} (s : TransportState α) : TransportState α :=
  ⟨true, false, s.message_queue⟩

/-- Embedding of the lifecycle gate of Transport connect: it raises the
closed-session IOError when the transport is destroyed, otherwise it
schedules a connection attempt. -/
def connect {α : Type} (s : TransportState α) : Except LifecycleError Unit :=
  if s.destroyed then Except.error LifecycleError.closedSession else Except.ok ()

/-- Embedding of the lifecycle gate of Transport request: it raises the
closed-session IOError when the transport is destroyed. -/
def request {α : Type} (s : TransportState α) : Except LifecycleError Unit :=
  if s.destroyed then Except.error LifecycleError.closedSession else Except.ok ()

/-- Outcome of one handshake attempt inside the connection attempt loop:
a WSServerHandshakeError with some HTTP status, a ClientConnectorError,
any other exception, or a successful websocket upgrade. -/
inductive AttemptOutcome
  | handshakeError (status : Nat)
  | connectorError
  | unknownError
  | success
  deriving DecidableEq

/-- Observable events of one run of the connection attempt loop. -/
inductive LoopEvent
  | backoffSleep (attempt : Nat) (delay : Nat)
  | exitHandshake (status : Nat)
  | connected (attempt : Nat)
  deriving DecidableEq

/-- Embedding of the while loop of Transport connect (the private
coroutine): given the sequence of handshake outcomes the environment
produces and the current attempt counter, it yields the trace of
observable events. A WSServerHandshakeError returns from the coroutine
for every status (401/403 and others differ only in the log message);
any other exception sleeps for min(10 * attempt, 60) seconds and
retries; success breaks out of the loop. -/
def connect_loop : List AttemptOutcome → Nat → List LoopEvent
  | [], _ => []
  | o :: rest, attempt =>
    match o with
    | AttemptOutcome.handshakeError s => [LoopEvent.exitHandshake s]
    | AttemptOutcome.connectorError =>
        LoopEvent.backoffSleep (attempt + 1) (min (10 * (attempt + 1)) 60)
          :: connect_loop rest (attempt + 1)
    | AttemptOutcome.unknownError =>
        LoopEvent.backoffSleep (attempt + 1) (min (10 * (attempt + 1)) 60)
          :: connect_loop rest (attempt + 1)
    | AttemptOutcome.success => [LoopEvent.connected (attempt + 1)]

/-- Observable actions of the success branch of the connection attempt
loop (the else branch of the try around ws_connect). -/
inductive ConnectAction (α : Type)
  | dispatchConnected
  | transmit (m : α)
  | requeue (m : α)
  | dropPayload (m : α)
  | clearQueue
  | startReadLoop
  deriving DecidableEq

/-- Result of running the flush for-loop: the actions performed, the
queue list as it stands when the loop ends, and whether the loop ran to
completion within the given fuel. -/
structure FlushResult (α : Type) where
  actions : List (ConnectAction α)
  queue : List α
  completed : Bool

/-- Embedding of the for-loop over the message queue in the success
branch of the connection attempt loop. Python iterates the live list by
index, so an append performed by send while the socket is closed is
visited later by the same loop. `conn i` tells whether ws_connected
holds when the i-th iteration calls send: if connected the payload is
transmitted; otherwise send runs its queueing branch, appending the
payload back onto the list being iterated unless it is at capacity.
The fuel bounds the recursion; flush_loop_completes shows 26 units are
enough whenever the queue respects its capacity invariant. -/
def flush_loop {α : Type} (conn : Nat → Bool) :
    Nat → Nat → List α → List (ConnectAction α) → FlushResult α
  | fuel, i, q, acc =>
    if h : i < q.length then
      match fuel with
      | 0 => ⟨acc, q, false⟩
      | fuel + 1 =>
        let m := q.get ⟨i, h⟩
        if conn i then
          flush_loop conn fuel (i + 1) q (acc ++ [ConnectAction.transmit m])
        else if MESSAGE_QUEUE_MAX_SIZE ≤ q.length then
          flush_loop conn fuel (i + 1) q (acc ++ [ConnectAction.dropPayload m])
        else
          flush_loop conn fuel (i + 1) (q ++ [m]) (acc ++ [ConnectAction.requeue m])
    else ⟨acc, q, true⟩

/-- Embedding of the success branch of the connection attempt loop:
dispatch NodeConnectedEvent; if the message queue is non-empty, send
every queued message and then unconditionally clear the queue; finally
start the read loop. Returns the trace of actions and the resulting
message queue. -/
def connect_success {α : Type} (q : List α) (conn : Nat → Bool) :
    List (ConnectAction α) × List α :=
  if q.isEmpty then
    ([ConnectAction.dispatchConnected, ConnectAction.startReadLoop], q)
  else
    let r := flush_loop conn 26 0 q []
    (ConnectAction.dispatchConnected
        :: (r.actions ++ [ConnectAction.clearQueue, ConnectAction.startReadLoop]),
      [])

/-- Type of an inbound websocket frame as tested by the read loop.
CLOSE_TYPES in the source holds CLOSING and CLOSED; ERROR is handled
separately; TEXT frames with data are dispatched; every other frame
type falls through and the loop continues. -/
inductive WSMsgType
  | closing
  | closed
  | wsError
  | text
  | binary
  deriving DecidableEq

/-- An inbound frame: its type and, for TEXT frames, its payload
(none models a TEXT frame whose data attribute is None). -/
structure WSFrame (β : Type) where
  type : WSMsgType
  data : Option β

/-- Embedding of handle_message_safe: the dispatch of one decoded
frame runs under a try/except that catches every exception and logs it,
so the result observable to the read loop is only whether handling
succeeded. -/
def handle_message_safe {β ε : Type} (handler : β → Except ε Unit) (d : β) : Bool :=
  match handler d with
  | Except.ok _ => true
  | Except.error _ => false

/-- Observable events of one run of the read loop. -/
inductive ListenEvent (β : Type)
  | handled (d : β) (ok : Bool)
  | closeFrame
  | errorFrame
  deriving DecidableEq

/-- Embedding of the while loop of listen: a CLOSING or CLOSED frame
breaks the loop, an ERROR frame breaks the loop, a TEXT frame with data
is handed to handle_message_safe (whose failure is caught there) and
the loop continues, and any other frame is skipped. -/
def listen {β ε : Type} (handler : β → Except ε Unit) : List (WSFrame β) → List (ListenEvent β)
  | [] => []
  | f :: rest =>
    match f.type with
    | WSMsgType.closing => [ListenEvent.closeFrame]
    | WSMsgType.closed => [ListenEvent.closeFrame]
    | WSMsgType.wsError => [ListenEvent.errorFrame]
    | WSMsgType.text =>
      match f.data with
      | some d => ListenEvent.handled d (handle_message_safe handler d) :: listen handler rest
      | none => listen handler rest
    | WSMsgType.binary => listen handler rest

/-- The payloads a run of the read loop actually dispatched, in order. -/
def processed {β : Type} (evs : List (ListenEvent β)) : List β :=
  evs.filterMap fun e =>
    match e with
    | ListenEvent.handled d _ => some d
    | _ => none

/-- The fields of a player that the TrackStartEvent branch of
handle_event touches: the current track and the pre-staged next track. -/
structure PlayerModel (τ : Type) where
  current : Option τ
  next : Option τ

/-- Embedding of the TrackStartEvent branch of handle_event: when the
next-track pointer is set it is promoted to current and cleared, then
the event is constructed from the current track (the second component;
the source asserts it is not None at that point). -/
def handle_track_start {τ : Type} (p : PlayerModel τ) : PlayerModel τ × Option τ :=
  match p.next with
  | some n => (⟨some n, none⟩, some n)
  | none => (p, p.current)

/-- Embedding of the path normalization in request: a path starting
with a slash has exactly that one leading slash removed. -/
def normalize_path (path : List Char) : List Char :=
  match path with
  | [] => []
  | c :: rest => if c = '/' then rest else c :: rest

/-- Embedding of the http_uri property: scheme chosen by the ssl flag,
then host and port. -/
def http_uri (ssl : Bool) (host : List Char) (port : Nat) : List Char :=
  (if ssl then "https".toList else "http".toList)
    ++ "://".toList ++ host ++ ':' :: (toString port).toList

/-- Embedding of the URL construction in request: the base URI, an
optional API version segment, and the normalized path. -/
def request_url (ssl : Bool) (host : List Char) (port : Nat) (versioned : Bool)
    (path : List Char) : List Char :=
  if versioned then
    http_uri ssl host port ++ '/' :: LAVALINK_API_VERSION ++ '/' :: normalize_path path
  else
    http_uri ssl host port ++ '/' :: normalize_path path

/-- The request line request builds: the method as given and the
constructed URL. -/
def request_line (method : List Char) (ssl : Bool) (host : List Char) (port : Nat)
    (versioned : Bool) (path : List Char) : List Char × List Char :=
  (method, request_url ssl host port versioned path)

/-- Helper: send on a cons unfolds to send of the tail from the updated
state. -/
theorem send_all_cons {α : Type} (s : TransportState α) (m : α) (ms : List α) :
    send_all s (m :: ms) = send_all (send s m).1 ms := rfl

/-- Helper: while disconnected, folding send over a list of payloads
appends exactly the part of the list that fits under the capacity. -/
theorem send_all_queue {α : Type} (ms : List α) :
    ∀ (d : Bool) (q : List α), q.length ≤ MESSAGE_QUEUE_MAX_SIZE →
      (send_all ⟨d, false, q⟩ ms).message_queue
        = q ++ ms.take (MESSAGE_QUEUE_MAX_SIZE - q.length) := by
  induction ms with
  | nil => intro d q hq; simp [send_all]
  | cons m ms ih =>
    intro d q hq
    rw [send_all_cons]
    by_cases hfull : MESSAGE_QUEUE_MAX_SIZE ≤ q.length
    · have hstep : (send ⟨d, false, q⟩ m).1 = ⟨d, false, q⟩ := by
        simp [send, hfull]
      have hz : MESSAGE_QUEUE_MAX_SIZE - q.length = 0 := by omega
      rw [hstep, ih d q hq, hz]
      simp
    · have hstep : (send ⟨d, false, q⟩ m).1 = ⟨d, false, q ++ [m]⟩ := by
        simp [send, hfull]
      have hlen : (q ++ [m]).length ≤ MESSAGE_QUEUE_MAX_SIZE := by
        simp; omega
      rw [hstep, ih d (q ++ [m]) hlen]
      have hsucc : MESSAGE_QUEUE_MAX_SIZE - q.length
          = (MESSAGE_QUEUE_MAX_SIZE - (q ++ [m]).length) + 1 := by
        simp; omega
      rw [hsucc, List.take_succ_cons]
      simp

/-- Helper: with the socket open at every step, the flush loop
transmits the remaining queue entries in order and changes nothing. -/
theorem flush_loop_open {α : Type} :
    ∀ (fuel i : Nat) (q : List α) (acc : List (ConnectAction α)), q.length ≤ i + fuel →
      flush_loop (fun _ => true) fuel i q acc
        = ⟨acc ++ (q.drop i).map ConnectAction.transmit, q, true⟩ := by
  intro fuel
  induction fuel with
  | zero =>
    intro i q acc hl
    have hni : ¬ i < q.length := by omega
    rw [flush_loop, dif_neg hni]
    rw [List.drop_eq_nil_of_le (by omega)]
    simp
  | succ fuel ih =>
    intro i q acc hl
    by_cases hi : i < q.length
    · rw [flush_loop, dif_pos hi]
      simp only
      rw [ih (i + 1) q (acc ++ [ConnectAction.transmit (q.get ⟨i, hi⟩)]) (by omega)]
      rw [List.drop_eq_getElem_cons hi]
      simp only [List.get_eq_getElem, List.map_cons, List.append_assoc, List.singleton_append]
      rw [if_pos trivial]
    · rw [flush_loop, dif_neg hi]
      rw [List.drop_eq_nil_of_le (by omega)]
      simp

/-- Helper: whenever the queue respects the capacity invariant, 26
units of fuel always let the flush loop run to completion, because the
index grows every step while the list never exceeds 25 entries. -/
theorem flush_loop_completes {α : Type} (conn : Nat → Bool) :
    ∀ (fuel i : Nat) (q : List α) (acc : List (ConnectAction α)),
      q.length ≤ MESSAGE_QUEUE_MAX_SIZE → MESSAGE_QUEUE_MAX_SIZE + 1 ≤ i + fuel →
      (flush_loop conn fuel i q acc).completed = true := by
  intro fuel
  induction fuel with
  | zero =>
    intro i q acc hq hf
    have hni : ¬ i < q.length := by
      simp [MESSAGE_QUEUE_MAX_SIZE] at hq hf; omega
    rw [flush_loop, dif_neg hni]
  | succ fuel ih =>
    intro i q acc hq hf
    by_cases hi : i < q.length
    · rw [flush_loop, dif_pos hi]
      simp only
      by_cases hc : conn i
      · rw [if_pos hc]
        exact ih (i + 1) q _ hq (by omega)
      · rw [if_neg hc]
        by_cases hcap : MESSAGE_QUEUE_MAX_SIZE ≤ q.length
        · rw [if_pos hcap]
          exact ih (i + 1) q _ hq (by omega)
        · rw [if_neg hcap]
          refine ih (i + 1) (q ++ [q.get ⟨i, hi⟩]) _ ?_ (by omega)
          simp; omega
    · rw [flush_loop, dif_neg hi]

/-- C1 counterexample: a handshake rejection with the non-auth status
500 makes the connection attempt loop return at once: the trace is a
single exit event, with no backoff sleep and no further attempt, even
though the next handshake would have succeeded. -/
theorem c1_counterexample :
    connect_loop [AttemptOutcome.handshakeError 500, AttemptOutcome.success] 0
        = [LoopEvent.exitHandshake 500]
      ∧ LoopEvent.backoffSleep 1 10 ∉
          connect_loop [AttemptOutcome.handshakeError 500, AttemptOutcome.success] 0
      ∧ LoopEvent.connected 2 ∉
          connect_loop [AttemptOutcome.handshakeError 500, AttemptOutcome.success] 0 := by
  refine ⟨rfl, ?_, ?_⟩ <;> decide

/-- C1 (amended): only a network error (ClientConnectorError) or an
unknown exception during the handshake makes the connection attempt
loop sleep for the backoff delay, increment the attempt counter and
retry; a handshake rejection with any HTTP status, auth or not, exits
the loop without retrying. -/
theorem c1_retry_on_exception :
    (∀ (rest : List AttemptOutcome) (a : Nat),
        connect_loop (AttemptOutcome.connectorError :: rest) a
          = LoopEvent.backoffSleep (a + 1) (min (10 * (a + 1)) 60)
              :: connect_loop rest (a + 1)
      ∧ connect_loop (AttemptOutcome.unknownError :: rest) a
          = LoopEvent.backoffSleep (a + 1) (min (10 * (a + 1)) 60)
              :: connect_loop rest (a + 1))
    ∧ ∀ (s : Nat) (rest : List AttemptOutcome) (a : Nat),
        connect_loop (AttemptOutcome.handshakeError s :: rest) a
          = [LoopEvent.exitHandshake s] :=
  ⟨fun _ _ => ⟨rfl, rfl⟩, fun _ _ _ => rfl⟩

/-- C2 counterexample: after destroy, a send call does not fail with a
lifecycle error; with the socket closed it silently queues the payload
onto the message queue. -/
theorem c2_counterexample :
    send (destroy ⟨false, true, []⟩) (0 : Nat)
      = (⟨true, false, [0]⟩, SendOutcome.queued) := rfl

/-- C2 (amended): destroy is idempotent and leaves the destroyed flag
true, and connect and request afterwards fail with the lifecycle error;
send however never fails after destroy: with the socket closed it
queues the payload, or silently drops it when the queue is full. -/
theorem c2_destroy_lifecycle :
    ∀ (s : TransportState Nat),
      destroy (destroy s) = destroy s
      ∧ (destroy s).destroyed = true
      ∧ connect (destroy s) = Except.error LifecycleError.closedSession
      ∧ request (destroy s) = Except.error LifecycleError.closedSession
      ∧ ∀ (m : Nat),
          (send (destroy s) m).2 ≠ SendOutcome.transmitted
          ∧ send (destroy s) m
            = if MESSAGE_QUEUE_MAX_SIZE ≤ s.message_queue.length
              then (destroy s, SendOutcome.dropped)
              else (⟨true, false, s.message_queue ++ [m]⟩, SendOutcome.queued) := by
  intro s
  refine ⟨rfl, rfl, rfl, rfl, fun m => ?_⟩
  by_cases hcap : MESSAGE_QUEUE_MAX_SIZE ≤ s.message_queue.length
  · simp [send, destroy, hcap]
  · simp [send, destroy, hcap]

/-- C3: starting from an empty queue while disconnected, any sequence
of send calls leaves exactly the first 25 payloads queued in arrival
order, the queue never exceeds 25 entries, and a send arriving at a
full queue is dropped leaving the state unchanged. -/
theorem c3_queue_bounded :
    ∀ (ms : List Nat),
      (send_all ⟨false, false, []⟩ ms).message_queue = ms.take MESSAGE_QUEUE_MAX_SIZE
      ∧ (send_all ⟨false, false, []⟩ ms).message_queue.length ≤ MESSAGE_QUEUE_MAX_SIZE
      ∧ ∀ (s : TransportState Nat) (m : Nat),
          s.ws_connected = false → MESSAGE_QUEUE_MAX_SIZE ≤ s.message_queue.length →
          send s m = (s, SendOutcome.dropped) := by
  intro ms
  have hq := send_all_queue ms false [] (by simp)
  simp only [List.nil_append, List.length_nil, Nat.sub_zero] at hq
  refine ⟨hq, ?_, ?_⟩
  · rw [hq]
    exact (List.length_take _ _).le.trans (min_le_left _ _)
  · intro s m hws hcap
    simp [send, hws, hcap]

/-- C3 witness: with a full queue of 25 entries, a 26th disconnected
send is dropped and the queue keeps its contents and order. -/
theorem c3_witness :
    (⟨false, false, List.range 25⟩ : TransportState Nat).ws_connected = false
    ∧ MESSAGE_QUEUE_MAX_SIZE ≤ (⟨false, false, List.range 25⟩ :
        TransportState Nat).message_queue.length
    ∧ send (⟨false, false, List.range 25⟩ : TransportState Nat) 99
      = (⟨false, false, List.range 25⟩, SendOutcome.dropped) :=
  ⟨rfl, by decide, (c3_queue_bounded []).2.2 ⟨false, false, List.range 25⟩ 99 rfl (by decide)⟩

/-- C4: on a successful connection with a non-empty queue within
capacity and the socket staying open, the trace is exactly the node
connected dispatch, the queued payloads transmitted in FIFO order, the
queue clear, and only then the start of the read loop; the resulting
queue is empty. -/
theorem c4_flush_fifo :
    ∀ (q : List Nat), q ≠ [] → q.length ≤ MESSAGE_QUEUE_MAX_SIZE →
      connect_success q (fun _ => true)
        = (ConnectAction.dispatchConnected
            :: (q.map ConnectAction.transmit
              ++ [ConnectAction.clearQueue, ConnectAction.startReadLoop]), []) := by
  intro q hne hq
  have hq26 : q.length ≤ 0 + 26 := by
    simp [MESSAGE_QUEUE_MAX_SIZE] at hq; omega
  have hflush := flush_loop_open 26 0 q [] hq26
  rw [connect_success, if_neg (by simpa [List.isEmpty_iff] using hne)]
  rw [hflush]
  simp

/-- C4 witness: a concrete two-payload queue is flushed in order before
the read loop starts. -/
theorem c4_witness :
    (([3, 4] : List Nat) ≠ [] ∧ ([3, 4] : List Nat).length ≤ MESSAGE_QUEUE_MAX_SIZE)
    ∧ connect_success ([3, 4] : List Nat) (fun _ => true)
      = (ConnectAction.dispatchConnected
          :: ([3, 4].map ConnectAction.transmit
            ++ [ConnectAction.clearQueue, ConnectAction.startReadLoop]), []) :=
  ⟨⟨by decide, by decide⟩, c4_flush_fifo [3, 4] (by decide) (by decide)⟩

/-- C5: after a handshake rejection with an authentication status (401
or 403) the connection attempt loop exits at once: whatever outcomes
the environment would produce next, the trace is the single exit event,
so no backoff is slept and no further attempt is made. -/
theorem c5_auth_stops_retry :
    ∀ (s : Nat) (rest : List AttemptOutcome) (a : Nat), s = 401 ∨ s = 403 →
      connect_loop (AttemptOutcome.handshakeError s :: rest) a
        = [LoopEvent.exitHandshake s]
      ∧ (∀ (k d : Nat), LoopEvent.backoffSleep k d ∉
          connect_loop (AttemptOutcome.handshakeError s :: rest) a)
      ∧ ∀ (k : Nat), LoopEvent.connected k ∉
          connect_loop (AttemptOutcome.handshakeError s :: rest) a := by
  intro s rest a _
  refine ⟨rfl, ?_, ?_⟩
  · intro k d
    simp [connect_loop]
  · intro k
    simp [connect_loop]

/-- C5 witness: a 401 rejection on the first attempt yields only the
exit event even when a later handshake would have succeeded. -/
theorem c5_witness :
    ((401 : Nat) = 401 ∨ (401 : Nat) = 403)
    ∧ (connect_loop (AttemptOutcome.handshakeError 401 :: [AttemptOutcome.success]) 0
        = [LoopEvent.exitHandshake 401]
      ∧ (∀ (k d : Nat), LoopEvent.backoffSleep k d ∉
          connect_loop (AttemptOutcome.handshakeError 401 :: [AttemptOutcome.success]) 0)
      ∧ ∀ (k : Nat), LoopEvent.connected k ∉
          connect_loop (AttemptOutcome.handshakeError 401 :: [AttemptOutcome.success]) 0) :=
  ⟨Or.inl rfl, c5_auth_stops_retry 401 [AttemptOutcome.success] 0 (Or.inl rfl)⟩

/-- C6: every backoff slept by the connection attempt loop on attempt k
lasts exactly min(10 times k, 60) seconds, whatever the sequence of
handshake outcomes and the starting attempt counter. -/
theorem c6_backoff_formula :
    ∀ (outs : List AttemptOutcome) (a k d : Nat),
      LoopEvent.backoffSleep k d ∈ connect_loop outs a → d = min (10 * k) 60 := by
  intro outs
  induction outs with
  | nil => intro a k d h; simp [connect_loop] at h
  | cons o rest ih =>
    intro a k d h
    cases o with
    | handshakeError s => simp [connect_loop] at h
    | connectorError =>
      rw [connect_loop] at h
      rcases List.mem_cons.mp h with heq | hmem
      · injection heq with h1 h2
        subst h1
        exact h2
      · exact ih (a + 1) k d hmem
    | unknownError =>
      rw [connect_loop] at h
      rcases List.mem_cons.mp h with heq | hmem
      · injection heq with h1 h2
        subst h1
        exact h2
      · exact ih (a + 1) k d hmem
    | success => simp [connect_loop] at h

/-- C6 witness: the single backoff of a one-failure run sleeps 10
seconds, which is min(10 times 1, 60). -/
theorem c6_witness :
    LoopEvent.backoffSleep 1 10 ∈ connect_loop [AttemptOutcome.unknownError] 0
    ∧ (10 : Nat) = min (10 * 1) 60 :=
  ⟨by decide, c6_backoff_formula [AttemptOutcome.unknownError] 0 1 10 (by decide)⟩

/-- Helper: the frames the read loop dispatches do not depend on the
handler, because handle_message_safe absorbs every handler error. -/
theorem listen_processed_agnostic {β ε₁ ε₂ : Type} (h₁ : β → Except ε₁ Unit)
    (h₂ : β → Except ε₂ Unit) :
    ∀ (frames : List (WSFrame β)),
      processed (listen h₁ frames) = processed (listen h₂ frames) := by
  intro frames
  induction frames with
  | nil => rfl
  | cons f rest ih =>
    cases htype : f.type with
    | closing => simp [listen, htype, processed]
    | closed => simp [listen, htype, processed]
    | wsError => simp [listen, htype, processed]
    | text =>
      cases hdata : f.data with
      | none => simpa [listen, htype, hdata] using ih
      | some d =>
        simp only [listen, htype, hdata, processed, List.filterMap_cons]
        simpa [processed] using ih
    | binary => simpa [listen, htype] using ih

/-- C7: a frame whose dispatch fails does not terminate the read loop:
the sequence of payloads the loop processes is the same whatever the
handler does (so it matches the failure-free run frame for frame), and
a text frame is always followed by the processing of the remaining
frames, the handler error being caught inside handle_message_safe. -/
theorem c7_read_loop_isolation :
    ∀ (frames : List (WSFrame Nat)) (h₁ h₂ : Nat → Except String Unit),
      processed (listen h₁ frames) = processed (listen h₂ frames)
      ∧ ∀ (d : Nat),
          listen h₁ (⟨WSMsgType.text, some d⟩ :: frames)
            = ListenEvent.handled d (handle_message_safe h₁ d) :: listen h₁ frames :=
  fun frames h₁ h₂ => ⟨listen_processed_agnostic h₁ h₂ frames, fun _ => rfl⟩

/-- C8: the TrackStartEvent branch promotes a set next-track pointer to
the current track and clears the pointer before the event is built from
it; with no pointer set the player state is untouched and the event
carries the unchanged current track. -/
theorem c8_track_start_promotion :
    (∀ (p : PlayerModel Nat) (t : Nat), p.next = some t →
        handle_track_start p = (⟨some t, none⟩, some t))
    ∧ ∀ (p : PlayerModel Nat), p.next = none →
        (handle_track_start p).1 = p ∧ (handle_track_start p).2 = p.current := by
  constructor
  · intro p t ht
    simp [handle_track_start, ht]
  · intro p hn
    simp [handle_track_start, hn]

/-- C8 witness: with next track 7 staged, track 7 becomes current and
the pointer clears; with no next track, current track 5 is unchanged. -/
theorem c8_witness :
    ((⟨some 5, some 7⟩ : PlayerModel Nat).next = some 7
      ∧ handle_track_start (⟨some 5, some 7⟩ : PlayerModel Nat) = (⟨some 7, none⟩, some 7))
    ∧ (⟨some 5, none⟩ : PlayerModel Nat).next = none
    ∧ (handle_track_start (⟨some 5, none⟩ : PlayerModel Nat)).1 = ⟨some 5, none⟩
    ∧ (handle_track_start (⟨some 5, none⟩ : PlayerModel Nat)).2
      = (⟨some 5, none⟩ : PlayerModel Nat).current :=
  ⟨⟨rfl, c8_track_start_promotion.1 ⟨some 5, some 7⟩ 7 rfl⟩, rfl,
    (c8_track_start_promotion.2 ⟨some 5, none⟩ rfl).1,
    (c8_track_start_promotion.2 ⟨some 5, none⟩ rfl).2⟩

set_option maxHeartbeats 2000000 in
/-- C9: after the flush phase of a successful connection the message
queue is always empty and the flush loop ran to completion; moreover,
in the concrete run where the socket closes before the flush sends
anything, the first queued payload is re-enqueued by send onto the
list being iterated, never transmitted, and the unconditional clear
still leaves the queue empty, so the payload is silently lost. -/
theorem c9_flush_clears_queue :
    (∀ (q : List Nat) (conn : Nat → Bool), q.length ≤ MESSAGE_QUEUE_MAX_SIZE →
        (connect_success q conn).2 = []
        ∧ (flush_loop conn 26 0 q ([] : List (ConnectAction Nat))).completed = true)
    ∧ ConnectAction.requeue 0 ∈ (connect_success (List.range 24) (fun _ => false)).1
    ∧ ConnectAction.transmit 0 ∉ (connect_success (List.range 24) (fun _ => false)).1
    ∧ (connect_success (List.range 24) (fun _ => false)).2 = [] := by
  refine ⟨?_, ?_, ?_, ?_⟩
  · intro q conn hq
    constructor
    · cases q with
      | nil => rfl
      | cons x rest => simp [connect_success]
    · exact flush_loop_completes conn 26 0 q [] hq (by decide)
  · decide
  · decide
  · decide

/-- C9 witness: a concrete in-capacity queue is left empty with the
flush loop completed. -/
theorem c9_witness :
    ([3, 4] : List Nat).length ≤ MESSAGE_QUEUE_MAX_SIZE
    ∧ ((connect_success ([3, 4] : List Nat) (fun _ => true)).2 = []
      ∧ (flush_loop (fun _ => true) 26 0 ([3, 4] : List Nat)
          ([] : List (ConnectAction Nat))).completed = true) :=
  ⟨by decide, c9_flush_clears_queue.1 [3, 4] (fun _ => true) (by decide)⟩

/-- C10: request strips exactly one leading slash from the path, so for
a path not beginning with a slash the request line built from the
slash-prefixed path is identical to the one built from the bare path,
for every method, scheme, host, port and versioning choice. -/
theorem c10_leading_slash :
    ∀ (method : List Char) (ssl : Bool) (host : List Char) (port : Nat)
      (versioned : Bool) (p : List Char), p.head? ≠ some '/' →
      request_line method ssl host port versioned ('/' :: p)
        = request_line method ssl host port versioned p := by
  intro method ssl host port versioned p hp
  have hone : normalize_path ('/' :: p) = p := by simp [normalize_path]
  have hid : normalize_path p = p := by
    cases p with
    | nil => rfl
    | cons c rest =>
      have hc : ¬ c = '/' := by
        intro h
        exact hp (by simp [h])
      simp [normalize_path, hc]
  cases versioned with
  | true => simp [request_line, request_url, hone, hid]
  | false => simp [request_line, request_url, hone, hid]

/-- C10 witness: the GET request line for the loadtracks path is the
same with and without the leading slash. -/
theorem c10_witness :
    "loadtracks".toList.head? ≠ some '/'
    ∧ request_line "GET".toList false "localhost".toList 2333 true
        ('/' :: "loadtracks".toList)
      = request_line "GET".toList false "localhost".toList 2333 true
        "loadtracks".toList :=
  ⟨by decide, c10_leading_slash "GET".toList false "localhost".toList 2333 true
    "loadtracks".toList (by decide)⟩

end Lavalink
